import Mathlib

/-!
# polhack: the vote simulator of `main.go`

A shallow embedding of `main.go` and the properties of its log bookkeeping,
its identity generation, its single vote run and its ticker loop.

Conventions of the embedding.

* Go `int` is 64 bit; `++` on a counter is addition followed by `wrapInt64`.
* The pseudo random source of `math/rand` is a stream of raw draws
  (`Rng`); `rand.Intn n` panics for `n ≤ 0` and otherwise yields the next raw
  draw reduced into `[0, n)`, so every in-range outcome is reachable.
* A panic is the value `none`.
* Functions with effects (`simulateVote`, `voteTicker`) return the trace of
  their effects in program order; the calls of `logMessage` in a trace are
  applied to the shared state by `replay`.
* The remote service and the library decoders are parameters (`Env`).
-/

namespace Polhack

/-! ## Constants -/

def MockServerURL : String := "https://politrack.africa/api/votes"
def StatusURL : String := "https://politrack.africa/api/votes/status"
def PollID : Int := 81
def CompetitorID : Int := 374

/-! ## Data model -/

structure VoterProfile where
  Name : String
  Gender : String
  deriving DecidableEq, Repr

structure Vote where
  ID : Int
  CompetitorID : Int
  VoterID : String
  Name : String
  Gender : String
  Region : String
  County : String
  Constituency : String
  Ward : String
  deriving DecidableEq, Repr

/-- The record `LogEntry`; its field `Type` is spelled `Typ` here, `Type`
being reserved. -/
structure LogEntry where
  Time : String
  Message : String
  Typ : String
  deriving DecidableEq, Repr

/-- The package level variables guarded by `mu`, and the lines written to
standard output by `logMessage`. -/
structure State where
  logs : List LogEntry
  totalSuccess : Int
  totalSkipped : Int
  stdout : List String
  deriving DecidableEq, Repr

/-- The state at program start: zero values of the package variables. -/
def State.init : State :=
  { logs := [], totalSuccess := 0, totalSkipped := 0, stdout := [] }

/-! ## Machine integers -/

/-- Two's complement wrap of a mathematical integer into the range of a 64 bit
Go `int`. -/
def wrapInt64 (x : Int) : Int :=
  (x + 9223372036854775808) % 18446744073709551616 - 9223372036854775808

/-- The largest Go `int`. -/
def maxInt64 : Int := 9223372036854775807

/-- The smallest Go `int`. -/
def minInt64 : Int := -9223372036854775808

/-! ## Wall clock -/

/-- A reading of the local wall clock, as far as the layout `15:04:05` uses
it. -/
structure TimeOfDay where
  hour : Nat
  minute : Nat
  second : Nat
  deriving DecidableEq, Repr

/-- Two decimal digits, zero padded. -/
def twoDigits (n : Nat) : String :=
  String.mk [Char.ofNat (48 + n / 10 % 10), Char.ofNat (48 + n % 10)]

/-- The call `t.Format("15:04:05")`. -/
def formatClock (t : TimeOfDay) : String :=
  twoDigits t.hour ++ ":" ++ twoDigits t.minute ++ ":" ++ twoDigits t.second

/-! ## logMessage -/

/-- The function `logMessage`, with the clock reading `now` of `time.Now()`
made explicit. The body runs between `mu.Lock()` and the deferred
`mu.Unlock()`, so it is one atomic step on the shared state. -/
def logMessage (now : TimeOfDay) (msg typ : String) (s : State) : State :=
  let entry : LogEntry := { Time := formatClock now, Message := msg, Typ := typ }
  let logs := [entry] ++ s.logs
  let totalSuccess := if typ = "success" then wrapInt64 (s.totalSuccess + 1) else s.totalSuccess
  let totalSkipped :=
    if typ = "success" then s.totalSkipped
    else if typ = "skipped" then wrapInt64 (s.totalSkipped + 1)
    else s.totalSkipped
  { logs := logs
    totalSuccess := totalSuccess
    totalSkipped := totalSkipped
    stdout := s.stdout ++ [entry.Time ++ " - " ++ entry.Message] }

/-- One call of `logMessage`: the clock reading, the message and the type. -/
structure LogCall where
  now : TimeOfDay
  msg : String
  typ : String
  deriving DecidableEq, Repr

/-- A sequence of `logMessage` calls, run in order from the state `s`. -/
def logAll (s : State) (calls : List LogCall) : State :=
  calls.foldl (fun acc c => logMessage c.now c.msg c.typ acc) s

/-- The data handed to the template by the `/dashboard` handler. -/
structure Dashboard where
  logs : List LogEntry
  totalVotes : Int
  totalSuccess : Int
  totalSkipped : Int
  deriving DecidableEq, Repr

/-- The handler of `GET /dashboard`: a snapshot taken under `mu`. -/
def dashboard (s : State) : Dashboard :=
  { logs := s.logs
    totalVotes := (s.logs.length : Int)
    totalSuccess := s.totalSuccess
    totalSkipped := s.totalSkipped }

/-- Number of log entries of a given type. -/
def countType (typ : String) (logs : List LogEntry) : Nat :=
  (logs.filter (fun e => e.Typ = typ)).length

/-- The counters agree with the log list up to the 64 bit wrap. -/
def CountersMatch (s : State) : Prop :=
  s.totalSuccess = wrapInt64 (countType "success" s.logs) ∧
  s.totalSkipped = wrapInt64 (countType "skipped" s.logs)

/-! ## Random source -/

/-- The stream of raw draws behind `math/rand`. -/
abbrev Rng := Nat → Nat

/-- The rest of the stream after one draw. -/
def Rng.tail (g : Rng) : Rng := fun i => g (i + 1)

/-- The call `rand.Intn(n)`: a panic for `n = 0` (Go: `n <= 0`; the argument
is always a length here), else a value in `[0, n)` and the advanced source. -/
def intn (n : Nat) (g : Rng) : Option (Nat × Rng) :=
  if n = 0 then none else some (g 0 % n, g.tail)

/-! ## randomVoter and randomString -/

/-- The function `randomVoter`, over the package variables `firstNames` and
`lastNames`. Indexing out of range is a panic. -/
def randomVoter (firstNames lastNames : List String) (g : Rng) :
    Option (VoterProfile × Rng) := do
  let (i, g) ← intn firstNames.length g
  let first ← firstNames[i]?
  let (j, g) ← intn lastNames.length g
  let last ← lastNames[j]?
  let gender := "Male"
  let (k, g) ← intn 2 g
  let gender := if k = 0 then "Female" else gender
  pure ({ Name := first ++ " " ++ last, Gender := gender }, g)

/-- The constant `letters` of `randomString`; all of it is ASCII, so bytes and
characters coincide. -/
def letters : String := "abcdefghijklmnopqrstuvwxyz0123456789"

/-- The loop `for i := 0; i < n; i++` of `randomString` with `k` iterations
left; `sb` is the builder. -/
def randomStringLoop : Nat → String → Rng → Option (String × Rng)
  | 0, sb, g => some (sb, g)
  | k + 1, sb, g => do
    let (i, g) ← intn letters.length g
    let c ← letters.toList[i]?
    randomStringLoop k (sb.push c) g

/-- The function `randomString`: the loop body runs `n` times for `n > 0` and
not at all for `n ≤ 0`. -/
def randomString (n : Int) (g : Rng) : Option (String × Rng) :=
  randomStringLoop n.toNat "" g

/-! ## The remote service and effects -/

/-- What the program reads of an HTTP response: the status code (never
inspected) and the bytes `ioutil.ReadAll` returned. -/
structure Response where
  StatusCode : Int
  Body : String
  deriving DecidableEq, Repr

/-- The world outside the program, for one run of `simulateVote`.

* `httpGet url` is the result of `http.Get(url)`: the text of the error, or a
  response.
* `httpDo url contentType vote` is the result of `client.Do(req)` for the POST
  whose body is `json.Marshal(vote)`.
* `alreadyVoted body` is the field `statusResp.AlreadyVoted` after
  `json.Unmarshal(body, &statusResp)` on the zero struct.
* `unmarshalError body` is the error that same call returns (`none` for
  `nil`); the program drops it, so nothing in `simulateVote` reads it.
* `showVoteResp body` is the `%v` rendering of the map that
  `json.Unmarshal(body, &voteResp)` leaves. -/
structure Env where
  httpGet : String → Except String Response
  httpDo : String → String → Vote → Except String Response
  alreadyVoted : String → Bool
  unmarshalError : String → Option String
  showVoteResp : String → String

/-- The observable effects of the program, in program order. -/
inductive Effect where
  | logMessage (msg typ : String)
  | httpGet (url : String)
  | httpPost (url contentType : String) (vote : Vote)
  | goSimulateVote
  deriving DecidableEq, Repr

/-- Whether an effect is an HTTP request. -/
def Effect.isRequest : Effect → Bool
  | .httpGet _ => true
  | .httpPost _ _ _ => true
  | _ => false

/-- Whether an effect is a POST. -/
def Effect.isPost : Effect → Bool
  | .httpPost _ _ _ => true
  | _ => false

/-- Whether an effect is a call of `logMessage`. -/
def Effect.isLog : Effect → Bool
  | .logMessage _ _ => true
  | _ => false

/-- The calls of `logMessage` in a trace are applied to the state, each
with the next clock reading; other effects leave the state alone. -/
def replay : (Nat → TimeOfDay) → State → List Effect → State
  | _, s, [] => s
  | clock, s, .logMessage msg typ :: rest =>
    replay (fun i => clock (i + 1)) (logMessage (clock 0) msg typ s) rest
  | clock, s, _ :: rest => replay clock s rest

/-! ## simulateVote -/

/-- The message of the first log entry of a run. -/
def createdMessage (voter : VoterProfile) (voterID : String) : String :=
  "Created voter: " ++ voter.Name ++ " (" ++ voter.Gender ++ ") with ID " ++ voterID

/-- The URL of the status request of a run. -/
def statusURLOf (voterID : String) : String :=
  StatusURL ++ "?pollId=" ++ toString PollID ++ "&voter_id=" ++ voterID

/-- The vote record of a run. -/
def voteOf (voter : VoterProfile) (voterID : String) : Vote :=
  { ID := PollID
    CompetitorID := CompetitorID
    VoterID := voterID
    Name := voter.Name
    Gender := voter.Gender
    Region := "National"
    County := "All"
    Constituency := ""
    Ward := "" }

/-- The part of `simulateVote` after the voter and its ID are drawn. -/
def simulateVoteWith (env : Env) (voter : VoterProfile) (voterID : String) : List Effect :=
  let created := Effect.logMessage (createdMessage voter voterID) "info"
  let statusURL := statusURLOf voterID
  match env.httpGet statusURL with
  | .error err =>
    [created, .httpGet statusURL,
      .logMessage ("Error checking vote status: " ++ err) "info"]
  | .ok resp =>
    if env.alreadyVoted resp.Body then
      [created, .httpGet statusURL,
        .logMessage ("Voter " ++ voterID ++ " already voted. Skipping.") "skipped"]
    else
      let vote := voteOf voter voterID
      match env.httpDo MockServerURL "application/json" vote with
      | .error err =>
        [created, .httpGet statusURL, .httpPost MockServerURL "application/json" vote,
          .logMessage ("Error posting vote: " ++ err) "info"]
      | .ok resp2 =>
        [created, .httpGet statusURL, .httpPost MockServerURL "application/json" vote,
          .logMessage ("Voted for " ++ voter.Name ++ ". Response: "
            ++ env.showVoteResp resp2.Body) "success"]

/-- The function `simulateVote`: `none` is a panic (in `randomVoter`, before
any effect); otherwise the trace of the run and the advanced random source. -/
def simulateVote (env : Env) (firstNames lastNames : List String) (g : Rng) :
    Option (List Effect × Rng) := do
  let (voter, g) ← randomVoter firstNames lastNames g
  let (voterID, g) ← randomString 10 g
  pure (simulateVoteWith env voter voterID, g)

/-! ## voteTicker -/

/-- The constant `time.Hour`, in nanoseconds. -/
def Hour : Int := 3600000000000

/-- The constant `workersPerTick` of `voteTicker`. -/
def workersPerTick : Nat := 50

/-- The inner loop `for i := 0; i < workersPerTick; i++ { go simulateVote() }`
with `k` iterations left. -/
def spawnLoop : Nat → List Effect
  | 0 => []
  | k + 1 => Effect.goSimulateVote :: spawnLoop k

/-- The loop `for now := range ticker.C` of `voteTicker` over the ticks
delivered so far (instants in nanoseconds). The flag tells whether the loop
was left by `break`; with no tick left the loop is waiting. -/
def voteTickerLoop (endTime : Int) : List Int → List Effect × Bool
  | [] => ([], false)
  | now :: rest =>
    if now > endTime then
      ([Effect.logMessage "Finished 18 hours of voting simulation." "info"], true)
    else
      let r := voteTickerLoop endTime rest
      (spawnLoop workersPerTick ++ r.1, r.2)

/-- The function `voteTicker`, started at the instant `start`, for the ticks
the ticker delivers. -/
def voteTicker (start : Int) (ticks : List Int) : List Effect × Bool :=
  let endTime := start + 1 * Hour
  voteTickerLoop endTime ticks

/-- What C8 says of a string `s` returned for the length `n`: exactly `n` bytes
for `n ≥ 0`, empty for `n ≤ 0`, every byte a lowercase letter or a digit of
`letters`. -/
def IsRandomStringOf (n : Int) (s : String) : Prop :=
  (s.utf8ByteSize : Int) = max n 0 ∧ s.length = n.toNat ∧
  (n ≤ 0 → s = "") ∧
  ∀ c ∈ s.toList, c ∈ letters.toList ∧ (c.isLower = true ∨ c.isDigit = true)

/-! ## Sample inputs -/

/-- A sample random source. -/
def sampleRng : Rng := fun i => 7 * i + 3

/-- A sample clock. -/
def sampleClock : Nat → TimeOfDay := fun i => ⟨12, 0, i % 60⟩

/-- A service that knows no voter and accepts every vote. -/
def sampleEnvFresh : Env :=
  { httpGet := fun _ => .ok ⟨200, "\x7b\"alreadyVoted\":false\x7d"⟩
    httpDo := fun _ _ _ => .ok ⟨500, "oops"⟩
    alreadyVoted := fun _ => false
    unmarshalError := fun _ => none
    showVoteResp := fun _ => "map[]" }

/-- A service that has the voter on record. -/
def sampleEnvVoted : Env :=
  { httpGet := fun _ => .ok ⟨200, "\x7b\"alreadyVoted\":true\x7d"⟩
    httpDo := fun _ _ _ => .ok ⟨200, "ok"⟩
    alreadyVoted := fun _ => true
    unmarshalError := fun _ => none
    showVoteResp := fun _ => "map[]" }

/-- A service that cannot be reached. -/
def sampleEnvDown : Env :=
  { httpGet := fun _ => .error "connection refused"
    httpDo := fun _ _ _ => .error "connection refused"
    alreadyVoted := fun _ => false
    unmarshalError := fun _ => none
    showVoteResp := fun _ => "map[]" }

/-- A service that answers the status request and drops the vote. -/
def sampleEnvPostDown : Env :=
  { httpGet := fun _ => .ok ⟨200, ""⟩
    httpDo := fun _ _ _ => .error "EOF"
    alreadyVoted := fun _ => false
    unmarshalError := fun _ => some "unexpected end of JSON input"
    showVoteResp := fun _ => "map[]" }

/-- A status body with the member `alreadyVoted` twice: first the boolean
`true`, then the string `x`. -/
def duplicateKeyBody : String :=
  "\x7b\"alreadyVoted\":true,\"alreadyVoted\":\"x\"\x7d"

/-- A service that answers the status request with `duplicateKeyBody`. On that
body `json.Unmarshal` stores `true` for the first member, meets a string for
the boolean field at the second, keeps decoding and returns the type error at
the end: the field is `true` and the error is not `nil`. -/
def sampleEnvDuplicate : Env :=
  { httpGet := fun _ => .ok ⟨200, duplicateKeyBody⟩
    httpDo := fun _ _ _ => .ok ⟨200, "ok"⟩
    alreadyVoted := fun body => decide (body = duplicateKeyBody)
    unmarshalError := fun body =>
      if body = duplicateKeyBody then
        some "json: cannot unmarshal string into Go struct field .alreadyVoted of type bool"
      else none
    showVoteResp := fun _ => "map[]" }

/-- The voter that `randomVoter` draws from `sampleRng` over the sample names. -/
def sampleVoter : VoterProfile := ⟨"Bob Lee", "Male"⟩

/-- The random source after the three draws of `randomVoter`. -/
def sampleRng1 : Rng := sampleRng.tail.tail.tail

/-- The random source after the ten further draws of `randomString 10`. -/
def sampleRng2 : Rng := fun i => sampleRng (i + 13)

/-- Three calls of `logMessage`, one of each type. -/
def sampleCalls : List LogCall :=
  [⟨⟨12, 0, 1⟩, "Created voter", "info"⟩, ⟨⟨12, 0, 2⟩, "Voted", "success"⟩,
    ⟨⟨12, 0, 3⟩, "Skipping", "skipped"⟩]

/-! ## The log list and its counters -/

/-- C1: `logMessage msg typ` puts one new entry with `Message = msg` and
`Type = typ` at the head of the log list and keeps the previous list, in its
previous order, as the remainder; the length grows by exactly one. -/
theorem logMessage_prepends (now : TimeOfDay) (msg typ : String) (s : State) :
    (logMessage now msg typ s).logs.head? = some ⟨formatClock now, msg, typ⟩ ∧
    ((logMessage now msg typ s).logs.head?.map (fun e => (e.Message, e.Typ)))
      = some (msg, typ) ∧
    (logMessage now msg typ s).logs.tail = s.logs ∧
    (logMessage now msg typ s).logs.length = s.logs.length + 1 := by
  simp [logMessage]

theorem wrapInt64_succ_wrapInt64 (a : Int) :
    wrapInt64 (wrapInt64 a + 1) = wrapInt64 (a + 1) := by
  unfold wrapInt64
  omega

theorem wrapInt64_of_range (a : Int) (h0 : 0 ≤ a) (h1 : a ≤ maxInt64) :
    wrapInt64 a = a := by
  unfold wrapInt64
  unfold maxInt64 at h1
  omega

theorem countType_cons (t : String) (e : LogEntry) (l : List LogEntry) :
    countType t (e :: l) = countType t l + (if e.Typ = t then 1 else 0) := by
  unfold countType
  by_cases h : e.Typ = t <;> simp [List.filter_cons, h]

theorem countType_le_length (t : String) (l : List LogEntry) :
    countType t l ≤ l.length := by
  unfold countType
  exact List.length_filter_le _ _

theorem countType_add_le_length (l : List LogEntry) :
    countType "success" l + countType "skipped" l ≤ l.length := by
  induction l with
  | nil => simp [countType]
  | cons e l ih =>
    rw [countType_cons, countType_cons, List.length_cons]
    by_cases h1 : e.Typ = "success"
    · have h2 : ¬ e.Typ = "skipped" := by rw [h1]; decide
      simp [h1, h2]; omega
    · by_cases h2 : e.Typ = "skipped" <;> simp [h1, h2] <;> omega

theorem countersMatch_init : CountersMatch State.init := by
  constructor <;> decide

theorem countersMatch_logMessage (now : TimeOfDay) (msg typ : String) (s : State)
    (h : CountersMatch s) : CountersMatch (logMessage now msg typ s) := by
  obtain ⟨h1, h2⟩ := h
  have hne : ¬ ("success" : String) = "skipped" := by decide
  unfold CountersMatch
  simp only [logMessage, List.singleton_append, countType_cons]
  by_cases hs : typ = "success"
  · subst hs
    simp only [if_true, hne, if_false]
    refine ⟨?_, ?_⟩
    · rw [h1, wrapInt64_succ_wrapInt64]; norm_num
    · rw [h2]; norm_num
  · by_cases hk : typ = "skipped"
    · subst hk
      simp only [hs, if_false, if_true]
      refine ⟨?_, ?_⟩
      · rw [h1]; norm_num
      · rw [h2, wrapInt64_succ_wrapInt64]; norm_num
    · simp only [hs, hk, if_false]
      refine ⟨?_, ?_⟩
      · rw [h1]; norm_num
      · rw [h2]; norm_num

theorem countersMatch_logAll (calls : List LogCall) (s : State) (h : CountersMatch s) :
    CountersMatch (logAll s calls) := by
  induction calls generalizing s with
  | nil => exact h
  | cons c cs ih =>
    exact ih _ (countersMatch_logMessage c.now c.msg c.typ s h)

/-- C9: in every state reached from the initial state by a sequence of
`logMessage` calls (the log list of a length that a Go `int` holds),
`totalSuccess` is the number of entries of type "success", `totalSkipped` the
number of entries of type "skipped", and their sum is at most the `totalVotes`
shown by the dashboard. -/
theorem counters_match_logs (calls : List LogCall)
    (hlen : ((logAll State.init calls).logs.length : Int) ≤ maxInt64) :
    (logAll State.init calls).totalSuccess
      = countType "success" (logAll State.init calls).logs ∧
    (logAll State.init calls).totalSkipped
      = countType "skipped" (logAll State.init calls).logs ∧
    (dashboard (logAll State.init calls)).totalSuccess
      + (dashboard (logAll State.init calls)).totalSkipped
      ≤ (dashboard (logAll State.init calls)).totalVotes := by
  obtain ⟨h1, h2⟩ := countersMatch_logAll calls State.init countersMatch_init
  have hs := countType_le_length "success" (logAll State.init calls).logs
  have hk := countType_le_length "skipped" (logAll State.init calls).logs
  have hsum := countType_add_le_length (logAll State.init calls).logs
  have e1 : (logAll State.init calls).totalSuccess
      = countType "success" (logAll State.init calls).logs := by
    rw [h1]; apply wrapInt64_of_range <;> omega
  have e2 : (logAll State.init calls).totalSkipped
      = countType "skipped" (logAll State.init calls).logs := by
    rw [h2]; apply wrapInt64_of_range <;> omega
  refine ⟨e1, e2, ?_⟩
  simp only [dashboard]
  rw [e1, e2]
  exact_mod_cast hsum

/-- C9 at three calls, one of each type. -/
theorem counters_match_logs_witness :
    ((logAll State.init sampleCalls).logs.length : Int) ≤ maxInt64 ∧
    (logAll State.init sampleCalls).totalSuccess
      = countType "success" (logAll State.init sampleCalls).logs ∧
    (logAll State.init sampleCalls).totalSkipped
      = countType "skipped" (logAll State.init sampleCalls).logs ∧
    (dashboard (logAll State.init sampleCalls)).totalSuccess
      + (dashboard (logAll State.init sampleCalls)).totalSkipped
      ≤ (dashboard (logAll State.init sampleCalls)).totalVotes :=
  ⟨by decide, counters_match_logs sampleCalls (by decide)⟩

/-! ## Identity generation -/

theorem intn_pos (n : Nat) (g : Rng) (h : n ≠ 0) :
    intn n g = some (g 0 % n, g.tail) := by
  simp [intn, h]

theorem letters_length : letters.length = 36 := by decide

theorem letters_toList_length : letters.toList.length = 36 := by decide

theorem letters_ascii : ∀ c ∈ letters.toList,
    c.utf8Size = 1 ∧ (c.isLower = true ∨ c.isDigit = true) := by decide

theorem utf8ByteSize_go_ascii (cs : List Char) (h : ∀ c ∈ cs, c.utf8Size = 1) :
    String.utf8ByteSize.go cs = cs.length := by
  induction cs with
  | nil => rfl
  | cons c cs ih =>
    have hc := h c (List.mem_cons_self _ _)
    have ih2 := ih (fun d hd => h d (List.mem_cons_of_mem _ hd))
    show String.utf8ByteSize.go cs + c.utf8Size = cs.length + 1
    rw [ih2, hc]

theorem randomStringLoop_spec (k : Nat) (sb : String) (g : Rng) :
    ∃ cs g', randomStringLoop k sb g = some (⟨sb.toList ++ cs⟩, g') ∧
      cs.length = k ∧ ∀ c ∈ cs, c ∈ letters.toList := by
  induction k generalizing sb g with
  | zero => exact ⟨[], g, by simp [randomStringLoop], rfl, by simp⟩
  | succ k ih =>
    have hi : g 0 % 36 < letters.toList.length := by
      rw [letters_toList_length]; exact Nat.mod_lt _ (by decide)
    obtain ⟨cs, g2, hrun, hlen, hmem⟩ := ih (sb.push (letters.toList[g 0 % 36])) g.tail
    refine ⟨letters.toList[g 0 % 36] :: cs, g2, ?_, by simp [hlen], ?_⟩
    · simp only [randomStringLoop, letters_length, intn_pos 36 g (by decide),
        Option.bind_eq_bind, Option.some_bind, List.getElem?_eq_getElem hi]
      rw [hrun]
      simp [String.push]
    · intro c hc
      rcases List.mem_cons.mp hc with h | h
      · rw [h]; exact List.getElem_mem _
      · exact hmem c h

theorem randomString_run (n : Int) (g : Rng) :
    ∃ s g', randomString n g = some (s, g') ∧ s.length = n.toNat ∧
      s.utf8ByteSize = n.toNat ∧
      ∀ c ∈ s.toList, c ∈ letters.toList ∧ (c.isLower = true ∨ c.isDigit = true) := by
  obtain ⟨cs, g2, hrun, hlen, hmem⟩ := randomStringLoop_spec n.toNat "" g
  refine ⟨⟨cs⟩, g2, ?_, ?_, ?_, ?_⟩
  · simpa [randomString] using hrun
  · simpa [String.length] using hlen
  · show String.utf8ByteSize.go cs = n.toNat
    rw [utf8ByteSize_go_ascii cs (fun c hc => (letters_ascii c (hmem c hc)).1), hlen]
  · intro c hc
    exact ⟨hmem c hc, (letters_ascii c (hmem c hc)).2⟩

/-- C7: for non-empty `firstNames` and `lastNames` and every random source,
`randomVoter` returns (no index is out of range) a profile whose `Name` is an
element of `firstNames`, one space, an element of `lastNames`, and whose
`Gender` is "Female" when the draw of `rand.Intn(2)` is 0 and "Male"
otherwise. -/
theorem randomVoter_spec (firstNames lastNames : List String) (g : Rng)
    (hf : firstNames ≠ []) (hl : lastNames ≠ []) :
    ∃ p g', randomVoter firstNames lastNames g = some (p, g') ∧
      (∃ first ∈ firstNames, ∃ last ∈ lastNames, p.Name = first ++ " " ++ last) ∧
      (∃ k, intn 2 g.tail.tail = some (k, g') ∧
        p.Gender = if k = 0 then "Female" else "Male") ∧
      (p.Gender = "Female" ∨ p.Gender = "Male") := by
  have hf0 : firstNames.length ≠ 0 := by
    intro h; exact hf (List.length_eq_zero.mp h)
  have hl0 : lastNames.length ≠ 0 := by
    intro h; exact hl (List.length_eq_zero.mp h)
  have hi : g 0 % firstNames.length < firstNames.length :=
    Nat.mod_lt _ (Nat.pos_of_ne_zero hf0)
  have hj : g.tail 0 % lastNames.length < lastNames.length :=
    Nat.mod_lt _ (Nat.pos_of_ne_zero hl0)
  refine ⟨⟨firstNames[g 0 % firstNames.length] ++ " " ++ lastNames[g.tail 0 % lastNames.length],
      if g.tail.tail 0 % 2 = 0 then "Female" else "Male"⟩, g.tail.tail.tail, ?_, ?_, ?_, ?_⟩
  · simp only [randomVoter, intn_pos _ g hf0, intn_pos _ g.tail hl0,
      intn_pos 2 g.tail.tail (by decide), Option.bind_eq_bind, Option.some_bind,
      List.getElem?_eq_getElem hi, List.getElem?_eq_getElem hj, Option.pure_def]
  · exact ⟨_, List.getElem_mem _, _, List.getElem_mem _, rfl⟩
  · exact ⟨g.tail.tail 0 % 2, intn_pos 2 g.tail.tail (by decide), rfl⟩
  · by_cases h : g.tail.tail 0 % 2 = 0 <;> simp [h]

/-- C7 at two first names and one last name. -/
theorem randomVoter_spec_witness :
    ∃ p g', randomVoter ["Ann", "Bob"] ["Lee"] sampleRng = some (p, g') ∧
      (∃ first ∈ ["Ann", "Bob"], ∃ last ∈ ["Lee"], p.Name = first ++ " " ++ last) ∧
      (∃ k, intn 2 sampleRng.tail.tail = some (k, g') ∧
        p.Gender = if k = 0 then "Female" else "Male") ∧
      (p.Gender = "Female" ∨ p.Gender = "Male") :=
  randomVoter_spec ["Ann", "Bob"] ["Lee"] sampleRng (by decide) (by decide)

theorem statusURLOf_eq (voterID : String) :
    statusURLOf voterID
      = "https://politrack.africa/api/votes/status?pollId=81&voter_id=" ++ voterID := by
  have h : StatusURL ++ "?pollId=" ++ toString PollID ++ "&voter_id="
      = "https://politrack.africa/api/votes/status?pollId=81&voter_id=" := by decide
  unfold statusURLOf
  rw [h]

theorem simulateVoteWith_getError (env : Env) (voter : VoterProfile) (voterID err : String)
    (hget : env.httpGet (statusURLOf voterID) = .error err) :
    simulateVoteWith env voter voterID
      = [.logMessage (createdMessage voter voterID) "info", .httpGet (statusURLOf voterID),
          .logMessage ("Error checking vote status: " ++ err) "info"] := by
  simp only [simulateVoteWith, hget]

theorem simulateVoteWith_skipped (env : Env) (voter : VoterProfile) (voterID : String)
    (resp : Response) (hget : env.httpGet (statusURLOf voterID) = .ok resp)
    (hav : env.alreadyVoted resp.Body = true) :
    simulateVoteWith env voter voterID
      = [.logMessage (createdMessage voter voterID) "info", .httpGet (statusURLOf voterID),
          .logMessage ("Voter " ++ voterID ++ " already voted. Skipping.") "skipped"] := by
  simp only [simulateVoteWith, hget, hav, if_true]

theorem simulateVoteWith_postError (env : Env) (voter : VoterProfile) (voterID err : String)
    (resp : Response) (hget : env.httpGet (statusURLOf voterID) = .ok resp)
    (hav : env.alreadyVoted resp.Body = false)
    (hdo : env.httpDo MockServerURL "application/json" (voteOf voter voterID) = .error err) :
    simulateVoteWith env voter voterID
      = [.logMessage (createdMessage voter voterID) "info", .httpGet (statusURLOf voterID),
          .httpPost MockServerURL "application/json" (voteOf voter voterID),
          .logMessage ("Error posting vote: " ++ err) "info"] := by
  simp only [simulateVoteWith, hget, hav, hdo, Bool.false_eq_true, if_false]

theorem simulateVoteWith_voted (env : Env) (voter : VoterProfile) (voterID : String)
    (resp resp2 : Response) (hget : env.httpGet (statusURLOf voterID) = .ok resp)
    (hav : env.alreadyVoted resp.Body = false)
    (hdo : env.httpDo MockServerURL "application/json" (voteOf voter voterID) = .ok resp2) :
    simulateVoteWith env voter voterID
      = [.logMessage (createdMessage voter voterID) "info", .httpGet (statusURLOf voterID),
          .httpPost MockServerURL "application/json" (voteOf voter voterID),
          .logMessage ("Voted for " ++ voter.Name ++ ". Response: "
            ++ env.showVoteResp resp2.Body) "success"] := by
  simp only [simulateVoteWith, hget, hav, hdo, Bool.false_eq_true, if_false]

theorem httpGet_mem_simulateVoteWith (env : Env) (voter : VoterProfile) (voterID : String) :
    Effect.httpGet (statusURLOf voterID) ∈ simulateVoteWith env voter voterID := by
  cases hget : env.httpGet (statusURLOf voterID) with
  | error err => rw [simulateVoteWith_getError env voter voterID err hget]; simp
  | ok resp =>
    cases hav : env.alreadyVoted resp.Body with
    | true => rw [simulateVoteWith_skipped env voter voterID resp hget hav]; simp
    | false =>
      cases hdo : env.httpDo MockServerURL "application/json" (voteOf voter voterID) with
      | error err =>
        rw [simulateVoteWith_postError env voter voterID err resp hget hav hdo]; simp
      | ok resp2 =>
        rw [simulateVoteWith_voted env voter voterID resp resp2 hget hav hdo]; simp

theorem isRandomStringOf_run (n : Int) (g : Rng) :
    ∃ s g', randomString n g = some (s, g') ∧ IsRandomStringOf n s := by
  obtain ⟨s, g2, hrun, hlen, hbytes, hchars⟩ := randomString_run n g
  refine ⟨s, g2, hrun, ?_, hlen, ?_, hchars⟩
  · rw [hbytes]; omega
  · intro hn
    have h0 : s.length = 0 := by rw [hlen]; omega
    have h1 : s.data = [] := List.length_eq_zero.mp h0
    exact String.ext h1

theorem simulateVote_eq (env : Env) (firstNames lastNames : List String) (g g1 g2 : Rng)
    (voter : VoterProfile) (voterID : String)
    (hv : randomVoter firstNames lastNames g = some (voter, g1))
    (hid : randomString 10 g1 = some (voterID, g2)) :
    simulateVote env firstNames lastNames g = some (simulateVoteWith env voter voterID, g2) := by
  simp [simulateVote, hv, hid]

/-- C8: `randomString n` returns, for every `n` and every random source, a
string of exactly `n` bytes for `n ≥ 0` (the empty string for `n ≤ 0`), each a
lowercase ASCII letter or a digit of the 36 character alphabet; and every
voter ID of a run of `simulateVote` is such a string of 10 bytes, appended
as it is to the status URL. -/
theorem randomString_spec (n : Int) (g : Rng) (env : Env)
    (firstNames lastNames : List String) (g0 : Rng) :
    (∃ s g', randomString n g = some (s, g') ∧ IsRandomStringOf n s) ∧
    (∀ voter g1, randomVoter firstNames lastNames g0 = some (voter, g1) →
      ∃ voterID g2, randomString 10 g1 = some (voterID, g2) ∧
        simulateVote env firstNames lastNames g0
          = some (simulateVoteWith env voter voterID, g2) ∧
        IsRandomStringOf 10 voterID ∧ voterID.utf8ByteSize = 10 ∧
        Effect.httpGet ("https://politrack.africa/api/votes/status?pollId=81&voter_id="
          ++ voterID) ∈ simulateVoteWith env voter voterID) := by
  refine ⟨isRandomStringOf_run n g, ?_⟩
  intro voter g1 hv
  obtain ⟨voterID, g2, hid, hspec⟩ := isRandomStringOf_run 10 g1
  refine ⟨voterID, g2, hid, simulateVote_eq env _ _ g0 g1 g2 voter voterID hv hid, hspec, ?_, ?_⟩
  · have h := hspec.1
    omega
  · rw [← statusURLOf_eq]
    exact httpGet_mem_simulateVoteWith env voter voterID

/-- C8 at `n = 3` and at a run of `simulateVote` over two first names and
one last name. -/
theorem randomString_spec_witness :
    (∃ s g', randomString 3 sampleRng = some (s, g') ∧ IsRandomStringOf 3 s) ∧
    ∃ voterID g2, randomString 10 sampleRng.tail.tail.tail = some (voterID, g2) ∧
      simulateVote sampleEnvFresh ["Ann", "Bob"] ["Lee"] sampleRng
        = some (simulateVoteWith sampleEnvFresh ⟨"Bob Lee", "Male"⟩ voterID, g2) ∧
      IsRandomStringOf 10 voterID ∧ voterID.utf8ByteSize = 10 ∧
      Effect.httpGet ("https://politrack.africa/api/votes/status?pollId=81&voter_id="
        ++ voterID) ∈ simulateVoteWith sampleEnvFresh ⟨"Bob Lee", "Male"⟩ voterID :=
  ⟨(randomString_spec 3 sampleRng sampleEnvFresh ["Ann", "Bob"] ["Lee"] sampleRng).1,
    (randomString_spec 3 sampleRng sampleEnvFresh ["Ann", "Bob"] ["Lee"] sampleRng).2
      ⟨"Bob Lee", "Male"⟩ sampleRng.tail.tail.tail rfl⟩

/-! ## One run of simulateVote -/

theorem wrapInt64_succ (a : Int) (h : minInt64 ≤ a ∧ a < maxInt64) :
    wrapInt64 (a + 1) = a + 1 := by
  obtain ⟨h0, h1⟩ := h
  unfold minInt64 at h0
  unfold maxInt64 at h1
  unfold wrapInt64
  omega

/-- C2, as the code has it: in a run whose status request returns a response,
the field `AlreadyVoted` that `json.Unmarshal` leaves decides alone, whatever
error `json.Unmarshal` returns (every `env.unmarshalError`). With the field
`true` the run logs one "skipped" entry naming the voter ID, adds one to
`totalSkipped` and sends no POST; with the field `false` the run sends exactly
one POST, carrying the vote of the same voter ID. -/
theorem simulateVote_status_response (env : Env) (firstNames lastNames : List String)
    (g g1 g2 : Rng) (voter : VoterProfile) (voterID : String) (resp : Response)
    (clock : Nat → TimeOfDay) (s : State)
    (hv : randomVoter firstNames lastNames g = some (voter, g1))
    (hid : randomString 10 g1 = some (voterID, g2))
    (hget : env.httpGet (statusURLOf voterID) = .ok resp)
    (hs : minInt64 ≤ s.totalSkipped ∧ s.totalSkipped < maxInt64) :
    ∃ tr, simulateVote env firstNames lastNames g = some (tr, g2) ∧
      if env.alreadyVoted resp.Body = true then
        tr.filter Effect.isLog
          = [.logMessage (createdMessage voter voterID) "info",
              .logMessage ("Voter " ++ voterID ++ " already voted. Skipping.") "skipped"] ∧
        tr.filter Effect.isRequest = [.httpGet (statusURLOf voterID)] ∧
        tr.filter Effect.isPost = [] ∧
        (replay clock s tr).totalSkipped = s.totalSkipped + 1 ∧
        (replay clock s tr).totalSuccess = s.totalSuccess
      else
        tr.filter Effect.isRequest
          = [.httpGet (statusURLOf voterID),
              .httpPost MockServerURL "application/json" (voteOf voter voterID)] ∧
        tr.filter Effect.isPost
          = [.httpPost MockServerURL "application/json" (voteOf voter voterID)] ∧
        (voteOf voter voterID).VoterID = voterID := by
  refine ⟨simulateVoteWith env voter voterID,
    simulateVote_eq env _ _ g g1 g2 voter voterID hv hid, ?_⟩
  cases hav : env.alreadyVoted resp.Body with
  | true =>
    rw [simulateVoteWith_skipped env voter voterID resp hget hav]
    simp [Effect.isLog, Effect.isRequest, Effect.isPost, replay, logMessage, wrapInt64_succ _ hs]
  | false =>
    cases hdo : env.httpDo MockServerURL "application/json" (voteOf voter voterID) with
    | error err =>
      rw [simulateVoteWith_postError env voter voterID err resp hget hav hdo]
      simp [Effect.isRequest, Effect.isPost, voteOf]
    | ok resp2 =>
      rw [simulateVoteWith_voted env voter voterID resp resp2 hget hav hdo]
      simp [Effect.isRequest, Effect.isPost, voteOf]

/-- C2 as stated fails: the body `duplicateKeyBody` is not parsable
(`json.Unmarshal` returns an error), yet the run sends no POST and logs the
voter as "skipped", where the claim has exactly one POST. -/
theorem simulateVote_unparsable_body_skipped :
    sampleEnvDuplicate.httpGet (statusURLOf "y5cjqx4bip") = .ok ⟨200, duplicateKeyBody⟩ ∧
    sampleEnvDuplicate.unmarshalError duplicateKeyBody ≠ none ∧
    (simulateVote sampleEnvDuplicate ["Ann", "Bob"] ["Lee"] sampleRng).map
        (fun r => r.1.filter Effect.isPost) = some [] ∧
    (simulateVote sampleEnvDuplicate ["Ann", "Bob"] ["Lee"] sampleRng).map
        (fun r => (r.1.filter Effect.isPost).length) ≠ some 1 ∧
    (simulateVote sampleEnvDuplicate ["Ann", "Bob"] ["Lee"] sampleRng).map
        (fun r => r.1.filter Effect.isLog)
      = some [.logMessage (createdMessage sampleVoter "y5cjqx4bip") "info",
          .logMessage "Voter y5cjqx4bip already voted. Skipping." "skipped"] := by
  refine ⟨rfl, by decide, by decide, by decide, by decide⟩

/-- C2 at a service that has the voter on record and at one that does not. -/
theorem simulateVote_status_response_witness :
    (∃ tr, simulateVote sampleEnvVoted ["Ann", "Bob"] ["Lee"] sampleRng
        = some (tr, sampleRng2) ∧
      if sampleEnvVoted.alreadyVoted "\x7b\"alreadyVoted\":true\x7d" = true then
        tr.filter Effect.isLog
          = [.logMessage (createdMessage sampleVoter "y5cjqx4bip") "info",
              .logMessage ("Voter " ++ "y5cjqx4bip" ++ " already voted. Skipping.") "skipped"] ∧
        tr.filter Effect.isRequest = [.httpGet (statusURLOf "y5cjqx4bip")] ∧
        tr.filter Effect.isPost = [] ∧
        (replay sampleClock State.init tr).totalSkipped = State.init.totalSkipped + 1 ∧
        (replay sampleClock State.init tr).totalSuccess = State.init.totalSuccess
      else
        tr.filter Effect.isRequest
          = [.httpGet (statusURLOf "y5cjqx4bip"),
              .httpPost MockServerURL "application/json" (voteOf sampleVoter "y5cjqx4bip")] ∧
        tr.filter Effect.isPost
          = [.httpPost MockServerURL "application/json" (voteOf sampleVoter "y5cjqx4bip")] ∧
        (voteOf sampleVoter "y5cjqx4bip").VoterID = "y5cjqx4bip") ∧
    (∃ tr, simulateVote sampleEnvFresh ["Ann", "Bob"] ["Lee"] sampleRng
        = some (tr, sampleRng2) ∧
      if sampleEnvFresh.alreadyVoted "\x7b\"alreadyVoted\":false\x7d" = true then
        tr.filter Effect.isLog
          = [.logMessage (createdMessage sampleVoter "y5cjqx4bip") "info",
              .logMessage ("Voter " ++ "y5cjqx4bip" ++ " already voted. Skipping.") "skipped"] ∧
        tr.filter Effect.isRequest = [.httpGet (statusURLOf "y5cjqx4bip")] ∧
        tr.filter Effect.isPost = [] ∧
        (replay sampleClock State.init tr).totalSkipped = State.init.totalSkipped + 1 ∧
        (replay sampleClock State.init tr).totalSuccess = State.init.totalSuccess
      else
        tr.filter Effect.isRequest
          = [.httpGet (statusURLOf "y5cjqx4bip"),
              .httpPost MockServerURL "application/json" (voteOf sampleVoter "y5cjqx4bip")] ∧
        tr.filter Effect.isPost
          = [.httpPost MockServerURL "application/json" (voteOf sampleVoter "y5cjqx4bip")] ∧
        (voteOf sampleVoter "y5cjqx4bip").VoterID = "y5cjqx4bip") :=
  ⟨simulateVote_status_response sampleEnvVoted ["Ann", "Bob"] ["Lee"] sampleRng sampleRng1
      sampleRng2 sampleVoter "y5cjqx4bip" ⟨200, "\x7b\"alreadyVoted\":true\x7d"⟩ sampleClock
      State.init rfl rfl rfl (by decide),
    simulateVote_status_response sampleEnvFresh ["Ann", "Bob"] ["Lee"] sampleRng sampleRng1
      sampleRng2 sampleVoter "y5cjqx4bip" ⟨200, "\x7b\"alreadyVoted\":false\x7d"⟩ sampleClock
      State.init rfl rfl rfl (by decide)⟩

/-- C3: when the status GET fails, the run is the "Created voter" entry, the
GET and one "info" entry with the error text, with no POST; when the vote POST
fails, the run is the entry, the GET, the one POST and one "info" entry with
the error text. In both cases no request follows the failed one and the
counters `totalSuccess` and `totalSkipped` stay as they were. -/
theorem simulateVote_failure (env : Env) (firstNames lastNames : List String)
    (g g1 g2 : Rng) (voter : VoterProfile) (voterID err : String)
    (clock : Nat → TimeOfDay) (s : State)
    (hv : randomVoter firstNames lastNames g = some (voter, g1))
    (hid : randomString 10 g1 = some (voterID, g2)) :
    (env.httpGet (statusURLOf voterID) = .error err →
      ∃ tr, simulateVote env firstNames lastNames g = some (tr, g2) ∧
        tr = [.logMessage (createdMessage voter voterID) "info",
              .httpGet (statusURLOf voterID),
              .logMessage ("Error checking vote status: " ++ err) "info"] ∧
        tr.filter Effect.isPost = [] ∧
        (replay clock s tr).totalSuccess = s.totalSuccess ∧
        (replay clock s tr).totalSkipped = s.totalSkipped) ∧
    (∀ resp, env.httpGet (statusURLOf voterID) = .ok resp →
      env.alreadyVoted resp.Body = false →
      env.httpDo MockServerURL "application/json" (voteOf voter voterID) = .error err →
      ∃ tr, simulateVote env firstNames lastNames g = some (tr, g2) ∧
        tr = [.logMessage (createdMessage voter voterID) "info",
              .httpGet (statusURLOf voterID),
              .httpPost MockServerURL "application/json" (voteOf voter voterID),
              .logMessage ("Error posting vote: " ++ err) "info"] ∧
        (replay clock s tr).totalSuccess = s.totalSuccess ∧
        (replay clock s tr).totalSkipped = s.totalSkipped) := by
  have hrun := simulateVote_eq env _ _ g g1 g2 voter voterID hv hid
  constructor
  · intro hget
    rw [simulateVoteWith_getError env voter voterID err hget] at hrun
    exact ⟨_, hrun, rfl, by simp [Effect.isPost], by simp [replay, logMessage],
      by simp [replay, logMessage]⟩
  · intro resp hget hav hdo
    rw [simulateVoteWith_postError env voter voterID err resp hget hav hdo] at hrun
    exact ⟨_, hrun, rfl, by simp [replay, logMessage], by simp [replay, logMessage]⟩

/-- C3 at a service that cannot be reached and at one that drops the vote. -/
theorem simulateVote_failure_witness :
    (∃ tr, simulateVote sampleEnvDown ["Ann", "Bob"] ["Lee"] sampleRng = some (tr, sampleRng2) ∧
        tr = [.logMessage (createdMessage sampleVoter "y5cjqx4bip") "info",
              .httpGet (statusURLOf "y5cjqx4bip"),
              .logMessage ("Error checking vote status: " ++ "connection refused") "info"] ∧
        tr.filter Effect.isPost = [] ∧
        (replay sampleClock State.init tr).totalSuccess = State.init.totalSuccess ∧
        (replay sampleClock State.init tr).totalSkipped = State.init.totalSkipped) ∧
    (∃ tr, simulateVote sampleEnvPostDown ["Ann", "Bob"] ["Lee"] sampleRng
          = some (tr, sampleRng2) ∧
        tr = [.logMessage (createdMessage sampleVoter "y5cjqx4bip") "info",
              .httpGet (statusURLOf "y5cjqx4bip"),
              .httpPost MockServerURL "application/json" (voteOf sampleVoter "y5cjqx4bip"),
              .logMessage ("Error posting vote: " ++ "EOF") "info"] ∧
        (replay sampleClock State.init tr).totalSuccess = State.init.totalSuccess ∧
        (replay sampleClock State.init tr).totalSkipped = State.init.totalSkipped) :=
  ⟨(simulateVote_failure sampleEnvDown ["Ann", "Bob"] ["Lee"] sampleRng sampleRng1 sampleRng2
      sampleVoter "y5cjqx4bip" "connection refused" sampleClock State.init rfl rfl).1 rfl,
    (simulateVote_failure sampleEnvPostDown ["Ann", "Bob"] ["Lee"] sampleRng sampleRng1
      sampleRng2 sampleVoter "y5cjqx4bip" "EOF" sampleClock State.init rfl rfl).2
      ⟨200, ""⟩ rfl rfl rfl⟩

/-- C10: when the vote POST returns a response, whatever its status code and
body, the run logs exactly one entry of type "success" and adds one to
`totalSuccess`; `totalSkipped` stays as it was. -/
theorem simulateVote_post_response (env : Env) (firstNames lastNames : List String)
    (g g1 g2 : Rng) (voter : VoterProfile) (voterID : String) (resp resp2 : Response)
    (clock : Nat → TimeOfDay) (s : State)
    (hv : randomVoter firstNames lastNames g = some (voter, g1))
    (hid : randomString 10 g1 = some (voterID, g2))
    (hget : env.httpGet (statusURLOf voterID) = .ok resp)
    (hav : env.alreadyVoted resp.Body = false)
    (hdo : env.httpDo MockServerURL "application/json" (voteOf voter voterID) = .ok resp2)
    (hs : minInt64 ≤ s.totalSuccess ∧ s.totalSuccess < maxInt64) :
    ∃ tr, simulateVote env firstNames lastNames g = some (tr, g2) ∧
      tr.filter Effect.isLog
        = [.logMessage (createdMessage voter voterID) "info",
            .logMessage ("Voted for " ++ voter.Name ++ ". Response: "
              ++ env.showVoteResp resp2.Body) "success"] ∧
      (replay clock s tr).totalSuccess = s.totalSuccess + 1 ∧
      (replay clock s tr).totalSkipped = s.totalSkipped ∧
      countType "success" (replay clock s tr).logs = countType "success" s.logs + 1 := by
  refine ⟨simulateVoteWith env voter voterID,
    simulateVote_eq env _ _ g g1 g2 voter voterID hv hid, ?_⟩
  rw [simulateVoteWith_voted env voter voterID resp resp2 hget hav hdo]
  simp [Effect.isLog, replay, logMessage, wrapInt64_succ _ hs, countType_cons]

/-- C10 at a service that answers the vote with status 500 and a body that is
not JSON. -/
theorem simulateVote_post_response_witness :
    ∃ tr, simulateVote sampleEnvFresh ["Ann", "Bob"] ["Lee"] sampleRng = some (tr, sampleRng2) ∧
      tr.filter Effect.isLog
        = [.logMessage (createdMessage sampleVoter "y5cjqx4bip") "info",
            .logMessage ("Voted for " ++ sampleVoter.Name ++ ". Response: "
              ++ sampleEnvFresh.showVoteResp "oops") "success"] ∧
      (replay sampleClock State.init tr).totalSuccess = State.init.totalSuccess + 1 ∧
      (replay sampleClock State.init tr).totalSkipped = State.init.totalSkipped ∧
      countType "success" (replay sampleClock State.init tr).logs
        = countType "success" State.init.logs + 1 :=
  simulateVote_post_response sampleEnvFresh ["Ann", "Bob"] ["Lee"] sampleRng sampleRng1
    sampleRng2 sampleVoter "y5cjqx4bip" ⟨200, "\x7b\"alreadyVoted\":false\x7d"⟩ ⟨500, "oops"⟩
    sampleClock State.init rfl rfl rfl rfl rfl (by decide)

/-! ## The ticker loop -/

theorem spawnLoop_eq_replicate (k : Nat) :
    spawnLoop k = List.replicate k Effect.goSimulateVote := by
  induction k with
  | zero => rfl
  | succ k ih => rw [spawnLoop, ih, List.replicate_succ]

theorem voteTickerLoop_waiting (endTime : Int) (ticks : List Int)
    (h : ∀ x ∈ ticks, ¬ x > endTime) :
    voteTickerLoop endTime ticks
      = (List.replicate (workersPerTick * ticks.length) Effect.goSimulateVote, false) := by
  induction ticks with
  | nil => simp [voteTickerLoop]
  | cons x xs ih =>
    have hx := h x (List.mem_cons_self _ _)
    have ih2 := ih (fun y hy => h y (List.mem_cons_of_mem _ hy))
    simp only [voteTickerLoop, hx, if_false, ih2, spawnLoop_eq_replicate, List.length_cons,
      Nat.mul_succ]
    rw [← List.replicate_add, Nat.add_comm]

theorem voteTickerLoop_finished (endTime : Int) (before : List Int) (t : Int)
    (after : List Int) (h : ∀ x ∈ before, ¬ x > endTime) (ht : t > endTime) :
    voteTickerLoop endTime (before ++ t :: after)
      = (List.replicate (workersPerTick * before.length) Effect.goSimulateVote
          ++ [Effect.logMessage "Finished 18 hours of voting simulation." "info"], true) := by
  induction before with
  | nil => simp [voteTickerLoop, ht]
  | cons x xs ih =>
    have hx := h x (List.mem_cons_self _ _)
    have ih2 := ih (fun y hy => h y (List.mem_cons_of_mem _ hy))
    rw [List.cons_append]
    simp only [voteTickerLoop, hx, if_false, spawnLoop_eq_replicate, List.length_cons,
      Nat.mul_succ]
    rw [ih2, ← List.append_assoc, ← List.replicate_add, Nat.add_comm]

/-- C4: while the ticks are not after the end time, `voteTicker` launches
exactly `workersPerTick = 50` runs of `simulateVote` per tick and goes on
waiting; at the first tick after the end time it launches none, logs exactly
one "info" entry and leaves the loop, so later ticks launch nothing. -/
theorem voteTicker_fixed_rate (start endTime : Int) (before : List Int) (t : Int)
    (after : List Int) (hend : endTime = start + 1 * Hour)
    (hbefore : ∀ x ∈ before, ¬ x > endTime) (ht : t > endTime) :
    workersPerTick = 50 ∧
    voteTicker start before
      = (List.replicate (50 * before.length) Effect.goSimulateVote, false) ∧
    voteTicker start (before ++ [t])
      = (List.replicate (50 * before.length) Effect.goSimulateVote
          ++ [Effect.logMessage "Finished 18 hours of voting simulation." "info"], true) ∧
    voteTicker start (before ++ t :: after) = voteTicker start (before ++ [t]) := by
  subst hend
  refine ⟨rfl, ?_, ?_, ?_⟩
  · exact voteTickerLoop_waiting _ before hbefore
  · exact voteTickerLoop_finished _ before t [] hbefore ht
  · show voteTickerLoop _ _ = voteTickerLoop _ _
    rw [voteTickerLoop_finished _ before t after hbefore ht,
      voteTickerLoop_finished _ before t [] hbefore ht]

/-- C4 at two ticks before the end time, one after it, and one more. -/
theorem voteTicker_fixed_rate_witness :
    workersPerTick = 50 ∧
    voteTicker 0 [1000000000, 2000000000]
      = (List.replicate (50 * [(1000000000 : Int), 2000000000].length)
          Effect.goSimulateVote, false) ∧
    voteTicker 0 ([1000000000, 2000000000] ++ [3601000000000])
      = (List.replicate (50 * [(1000000000 : Int), 2000000000].length) Effect.goSimulateVote
          ++ [Effect.logMessage "Finished 18 hours of voting simulation." "info"], true) ∧
    voteTicker 0 ([1000000000, 2000000000] ++ 3601000000000 :: [3602000000000])
      = voteTicker 0 ([1000000000, 2000000000] ++ [3601000000000]) :=
  voteTicker_fixed_rate 0 3600000000000 [1000000000, 2000000000] 3601000000000
    [3602000000000] (by decide) (by decide) (by decide)

/-- C5: one hour and one second after its start, seventeen hours before the
18 hours of its own log message are over, `voteTicker` logs "Finished 18 hours
of voting simulation.", launches nothing and leaves the loop. -/
theorem voteTicker_stops_after_one_hour :
    (1 * Hour + 1000000000 ≤ 18 * Hour) ∧
    voteTicker 0 [1000000000, 1 * Hour + 1000000000]
      = (List.replicate 50 Effect.goSimulateVote
          ++ [Effect.logMessage "Finished 18 hours of voting simulation." "info"], true) := by
  constructor
  · decide
  · rfl

end Polhack
